import Mathlib

/-!
Verification of the `terraform-provider-qrcode` provider.

Shallow embedding of the two handlers of the provider:
  * the data source `QRCodeDataSource.Read` (src/unnamed/part_000, the
    variant with the `ascii_sha256` computed attribute), and
  * the resource `qrcodeResource` Create / Read / Update / Delete
    (src/internal/provider/resource_qrcode.go).

External collaborators (the skip2/go-qrcode library, crypto/sha256 with
hex encoding, and the filesystem of the operating system) are modelled as
explicit parameters and an explicit filesystem state: every theorem
quantifies over them, so the proved properties hold for any behaviour of
the external code, exactly as the Go code would.

Terraform framework values: `types.String` is nullable, and
`ValueString()` of a null value is the empty string; `types.Int64` and
`types.Bool` behave likewise.  They are modelled as `Option` with the
`tfValueString` / `tfValueInt` / `tfValueBool` accessors.
-/

namespace QRProvider

/-- A Terraform diagnostic: summary and detail, as passed to
`resp.Diagnostics.AddError`. -/
structure Diag where
  summary : String
  detail : String
deriving DecidableEq, Repr

/-- Model of `types.String.ValueString()`: the empty string when null. -/
def tfValueString (s : Option String) : String := s.getD ""

/-- Model of `types.Int64.ValueInt64()`: zero when null. -/
def tfValueInt (i : Option Int) : Int := i.getD 0

/-- Model of `types.Bool.ValueBool()`: false when null. -/
def tfValueBool (b : Option Bool) : Bool := b.getD false

/-- Model of `qrcode.RecoveryLevel` from skip2/go-qrcode: the four error
correction strengths. -/
inductive RecoveryLevel where
  | Low
  | Medium
  | High
  | Highest
deriving DecidableEq, Repr

/-- The `*qrcode.QRCode` object returned by `qrcode.New`: the content
and level it was built from, plus the mutable `DisableBorder` field the
data source handler may set. -/
structure QRCodeObj where
  content : String
  level : RecoveryLevel
  disableBorder : Bool
deriving DecidableEq, Repr

/-- The external collaborators of the provider, kept abstract: the
skip2/go-qrcode entry points and the crypto/sha256 + hex digest
helpers.  Theorems quantify over this structure. -/
structure ExternalLib where
  /-- Model of `qrcode.Encode(text, level, size)`: PNG bytes or an error text. -/
  encodePNG : String → RecoveryLevel → Int → Except String (List Nat)
  /-- Model of `qrcode.New(text, level)`: a QR object or an error text.  The
  library initialises `DisableBorder` to false. -/
  newQR : String → RecoveryLevel → Except String QRCodeObj
  /-- Model of `(qr).ToSmallString(invert)`: render the object as an ASCII
  grid. -/
  toSmallString : QRCodeObj → Bool → String
  /-- Model of `hex.EncodeToString(sha256.Sum256(bytes))` on raw bytes. -/
  sha256Bytes : List Nat → String
  /-- Model of `hex.EncodeToString(sha256.Sum256([]byte(s)))` on a string. -/
  sha256String : String → String

/- ---------------------------------------------------------------------
Data source (src/unnamed/part_000)
--------------------------------------------------------------------- -/

/-- The config struct read by `QRCodeDataSource.Read` from
`req.Config`. -/
structure DSConfig where
  text : Option String
  sensitiveText : Option String
  errorCorrection : Option String
  disableBorder : Option Bool
  invert : Option Bool
deriving DecidableEq, Repr

/-- The state struct written by `QRCodeDataSource.Read` on success: the
echoed config plus the two computed attributes. -/
structure DSState where
  text : Option String
  sensitiveText : Option String
  errorCorrection : Option String
  disableBorder : Option Bool
  invert : Option Bool
  ascii : Option String
  asciiSha256 : Option String
deriving DecidableEq, Repr

/-- Model of `strings.ToUpper`: uppercase every character.  Go applies the
Unicode simple case mapping; this model applies the ASCII mapping,
which agrees with it on every string whose uppercasing can equal one of
the four single-letter options the switch below compares against. -/
def goToUpper (s : String) : String :=
  String.mk (s.data.map Char.toUpper)

/-- The `switch strings.ToUpper(data.ErrorCorrection.ValueString())`
statement of `QRCodeDataSource.Read`: `none` is the `default` branch. -/
def resolveErrorCorrection (s : String) : Option RecoveryLevel :=
  match goToUpper s with
  | "L" => some RecoveryLevel.Low
  | "M" => some RecoveryLevel.Medium
  | "" => some RecoveryLevel.Medium
  | "Q" => some RecoveryLevel.High
  | "H" => some RecoveryLevel.Highest
  | _ => none

/-- The diagnostic the `default` branch of the switch reports. -/
def invalidLevelDiag : Diag :=
  { summary := "Invalid Error Correction Level",
    detail := "Supported values: L (low), M (medium), Q (high), H (highest)." }

/-- The text selection both handlers perform: `text` when it is
non-null, otherwise `sensitive_text` (`ValueString()` of a null value
is the empty string). -/
def selectText (text sensitiveText : Option String) : String :=
  match text with
  | some t => t
  | none => tfValueString sensitiveText

/-- Embedding of `computeSHA256` of src/unnamed/part_000: SHA-256 of a string as a
hex string, delegated to the crypto collaborators. -/
def computeSHA256 (lib : ExternalLib) (input : String) : String :=
  lib.sha256String input

/-- Embedding of `QRCodeDataSource.Read` of src/unnamed/part_000, after a successful
`req.Config.Get`.  `Except.error d` is the handler returning with the
single diagnostic `d` added and no state set; `Except.ok st` is the
handler setting state `st`. -/
def QRCodeDataSource.Read (lib : ExternalLib) (data : DSConfig) :
    Except Diag DSState :=
  match resolveErrorCorrection (tfValueString data.errorCorrection) with
  | none => Except.error invalidLevelDiag
  | some level =>
    let qrText := selectText data.text data.sensitiveText
    match lib.newQR qrText level with
    | Except.error e =>
        Except.error
          { summary := "QR Code Generation Failed",
            detail := "Could not generate QR code: " ++ e }
    | Except.ok qr =>
        let qr1 := if tfValueBool data.disableBorder then
            { qr with disableBorder := true }
          else qr
        let asciiQR := lib.toSmallString qr1 (tfValueBool data.invert)
        let asciiChecksum := computeSHA256 lib asciiQR
        Except.ok
          { text := data.text
            sensitiveText := data.sensitiveText
            errorCorrection := data.errorCorrection
            disableBorder := data.disableBorder
            invert := data.invert
            ascii := some asciiQR
            asciiSha256 := some asciiChecksum }

/- ---------------------------------------------------------------------
Filesystem model (os.Stat / os.Remove / os.MkdirAll / os.WriteFile)
--------------------------------------------------------------------- -/

/-- The error returned by `os.Stat` when it fails: either the file does
not exist (`os.IsNotExist(err)` is true) or some other failure such as
a permission error. -/
inductive StatErr where
  | notExist
  | other
deriving DecidableEq, Repr

/-- Filesystem state, with fault injection for the failure branches the
Go code distinguishes.  `files` maps a path to its byte contents;
`statFault` injects a non-nil `os.Stat` error at a path; the remaining
fault lists name paths at which the corresponding syscall fails. -/
structure FS where
  files : List (String × List Nat)
  statFault : List (String × StatErr)
  removeFault : List String
  mkdirFault : List String
  writeFault : List String
deriving DecidableEq, Repr

/-- Contents at a path, if it holds a file. -/
def FS.lookup (fs : FS) (p : String) : Option (List Nat) :=
  (fs.files.find? (fun e => e.1 = p)).map (fun e => e.2)

/-- Model of `os.Stat(p)`: `none` for a nil error, `some e` for an error. -/
def FS.stat (fs : FS) (p : String) : Option StatErr :=
  match (fs.statFault.find? (fun e => e.1 = p)).map (fun e => e.2) with
  | some e => some e
  | none => if (fs.lookup p).isSome then none else some StatErr.notExist

/-- Model of `os.Remove(p)`: the error message, or the updated filesystem. -/
def FS.remove (fs : FS) (p : String) : Except String FS :=
  if p ∈ fs.removeFault then Except.error "remove failed"
  else Except.ok { fs with files := fs.files.filter (fun e => e.1 ≠ p) }

/-- Model of `os.MkdirAll(dir, os.ModePerm)`: directories are not otherwise
observed by the provider, so success leaves the state unchanged. -/
def FS.mkdirAll (fs : FS) (dir : String) : Except String FS :=
  if dir ∈ fs.mkdirFault then Except.error "mkdir failed"
  else Except.ok fs

/-- Model of `os.WriteFile(p, bytes, 0644)`: the error message, or the updated
filesystem with the file created or truncated to `bytes`. -/
def FS.writeFile (fs : FS) (p : String) (bytes : List Nat) :
    Except String FS :=
  if p ∈ fs.writeFault then Except.error "write failed"
  else Except.ok { fs with files := (p, bytes) :: fs.files.filter (fun e => e.1 ≠ p) }

/-- Model of `filepath.Dir`: everything before the final slash (Go additionally
runs `Clean` on the result; no claim depends on the returned string, it
is only the key at which a `mkdirFault` may be injected). -/
def filepathDir (p : String) : String :=
  let parts := p.splitOn "/"
  if parts.length ≤ 1 then "." else String.intercalate "/" parts.dropLast

/- ---------------------------------------------------------------------
Resource (src/internal/provider/resource_qrcode.go)
--------------------------------------------------------------------- -/

/-- The plan/state struct of the `qrcode_generate` resource. -/
structure ResourceModel where
  text : Option String
  sensitiveText : Option String
  size : Option Int
  file : Option String
  sha256 : Option String
deriving DecidableEq, Repr

/-- Result of a Create (or Update) call: the diagnostics, the state the
handler set (`none` when it returned before `resp.State.Set`), and the
resulting filesystem. -/
structure CreateResult where
  diags : List Diag
  state : Option ResourceModel
  fs : FS
deriving DecidableEq, Repr

/-- The "Invalid Size" diagnostic of `qrcodeResource.Create` (the
`fmt.Sprintf` with `minSize` 100 and `maxSize` 2000 applied). -/
def invalidSizeDiag : Diag :=
  { summary := "Invalid Size",
    detail := "Size must be between 100 and 2000 pixels." }

/-- The size bounds check of `qrcodeResource.Create`: `defaultSize`
(256) for a null plan size, otherwise the planned value if it lies
within `[minSize, maxSize]` = `[100, 2000]`, else the "Invalid Size"
diagnostic. -/
def resolveSize (size : Option Int) : Except Diag Int :=
  match size with
  | none => Except.ok 256
  | some v =>
    if v < 100 ∨ v > 2000 then Except.error invalidSizeDiag
    else Except.ok v

/-- Embedding of `qrcodeResource.Create`, after a successful `req.Plan.Get`. -/
def qrcodeResource.Create (lib : ExternalLib) (fs : FS)
    (plan : ResourceModel) : CreateResult :=
  let qrText := selectText plan.text plan.sensitiveText
  match resolveSize plan.size with
  | Except.error d => { diags := [d], state := none, fs := fs }
  | Except.ok size =>
    match lib.encodePNG qrText RecoveryLevel.Medium size with
    | Except.error e =>
        { diags := [{ summary := "QR Code Generation Failed", detail := e }],
          state := none, fs := fs }
    | Except.ok pngData =>
      let sha256Checksum := lib.sha256Bytes pngData
      let filePath := tfValueString plan.file
      let dir := filepathDir filePath
      match fs.mkdirAll dir with
      | Except.error e =>
          { diags := [{ summary := "Failed to Create Directory", detail := e }],
            state := none, fs := fs }
      | Except.ok fs1 =>
        match fs1.writeFile filePath pngData with
        | Except.error e =>
            { diags := [{ summary := "Failed to Save QR Code", detail := e }],
              state := none, fs := fs1 }
        | Except.ok fs2 =>
            { diags := [],
              state := some
                { text := plan.text
                  sensitiveText := plan.sensitiveText
                  size := plan.size
                  file := plan.file
                  sha256 := some sha256Checksum }
              fs := fs2 }

/-- Result of a Read call: the diagnostics and the refreshed state
(`none` after `resp.State.RemoveResource`). -/
structure ReadResult where
  diags : List Diag
  state : Option ResourceModel
deriving DecidableEq, Repr

/-- Embedding of `qrcodeResource.Read`, after a successful `req.State.Get`: removes
the resource from state exactly when the stat of a non-empty file path
fails with a not-exist error. -/
def qrcodeResource.Read (fs : FS) (state : ResourceModel) : ReadResult :=
  match state.file with
  | none => { diags := [], state := some state }
  | some f =>
    if f = "" then { diags := [], state := some state }
    else
      match fs.stat f with
      | some StatErr.notExist => { diags := [], state := none }
      | _ => { diags := [], state := some state }

/-- The update request: prior state and the new plan (`Config` and
`ProviderMeta` are never read by the handler and are omitted). -/
structure UpdateRequest where
  state : ResourceModel
  plan : ResourceModel
deriving DecidableEq, Repr

/-- Embedding of `qrcodeResource.Update`: delegates to Create on the plan of the request,
casting the response. -/
def qrcodeResource.Update (lib : ExternalLib) (fs : FS)
    (req : UpdateRequest) : CreateResult :=
  qrcodeResource.Create lib fs req.plan

/-- Result of a Delete call: the diagnostics, whether
`resp.State.RemoveResource` was called, and the resulting
filesystem. -/
structure DeleteResult where
  diags : List Diag
  removed : Bool
  fs : FS
deriving DecidableEq, Repr

/-- Embedding of `qrcodeResource.Delete`, after a successful `req.State.Get`. -/
def qrcodeResource.Delete (fs : FS) (state : ResourceModel) :
    DeleteResult :=
  match state.file with
  | none => { diags := [], removed := false, fs := fs }
  | some f =>
    if f = "" then { diags := [], removed := false, fs := fs }
    else
      match fs.stat f with
      | none =>
        match fs.remove f with
        | Except.error e =>
            { diags := [{ summary := "Failed to Delete QR Code", detail := e }],
              removed := false, fs := fs }
        | Except.ok fs1 => { diags := [], removed := true, fs := fs1 }
      | some _ => { diags := [], removed := true, fs := fs }

/- ---------------------------------------------------------------------
Schema validation (declared in both schemas)
--------------------------------------------------------------------- -/

/-- Modelled from the spec: the enforcement of the
`stringvalidator.ExactlyOneOf(path.MatchRoot("text"),
path.MatchRoot("sensitive_text"))` validator that both schemas declare.
The enforcement itself lives in the external
terraform-plugin-framework-validators library (not in this repository):
per the spec it runs at schema level, before handler logic, and passes
exactly when exactly one of the two attributes is supplied. -/
def exactlyOneOfPasses (text sensitiveText : Option String) : Bool :=
  (text.isSome && !sensitiveText.isSome) || (!text.isSome && sensitiveText.isSome)

/- ---------------------------------------------------------------------
Concrete instances used by the witness theorems
--------------------------------------------------------------------- -/

/-- A concrete, fully computable instantiation of the external
collaborators, used to evaluate the handlers at concrete inputs. -/
def testLib : ExternalLib :=
  { encodePNG := fun t _ size => Except.ok (size.toNat :: (t.toList.map Char.toNat))
    newQR := fun t l => Except.ok { content := t, level := l, disableBorder := false }
    toSmallString := fun qr invert =>
      qr.content ++ (if qr.disableBorder then "#nb" else "") ++ (if invert then "#inv" else "")
    sha256Bytes := fun bytes => "pngsha-" ++ toString bytes.length
    sha256String := fun s => "strsha-" ++ toString s.length }

/-- The empty filesystem with no injected faults. -/
def emptyFS : FS :=
  { files := [], statFault := [], removeFault := [], mkdirFault := [], writeFault := [] }

/-- The data source config used by witness theorems. -/
def dsWitnessConfig : DSConfig :=
  { text := some "qrcode", sensitiveText := none, errorCorrection := none,
    disableBorder := none, invert := none }

/-- The state `QRCodeDataSource.Read testLib dsWitnessConfig` sets. -/
def dsWitnessState : DSState :=
  { text := some "qrcode", sensitiveText := none, errorCorrection := none,
    disableBorder := none, invert := none,
    ascii := some "qrcode", asciiSha256 := some "strsha-6" }

/-- The out-of-range plan used by the C2 witness. -/
def plan99 : ResourceModel :=
  { text := some "t", sensitiveText := none, size := some 99,
    file := some "/tmp/qr/a.png", sha256 := none }

/-- An in-range plan with a null size, used by the C3 witness. -/
def planOk : ResourceModel :=
  { text := some "qrcode", sensitiveText := none, size := none,
    file := some "/tmp/qr/out.png", sha256 := none }

/-- A resource state whose file path is the empty string, used by the
C7 counterexample. -/
def emptyFileState : ResourceModel :=
  { text := some "t", sensitiveText := none, size := none,
    file := some "", sha256 := none }

/-- A resource state pointing at a concrete backing file. -/
def stateWithFile : ResourceModel :=
  { text := some "t", sensitiveText := none, size := none,
    file := some "/tmp/qr/x.png", sha256 := some "s" }

/-- A filesystem holding that backing file. -/
def fsWithFile : FS :=
  { files := [("/tmp/qr/x.png", [1])], statFault := [], removeFault := [],
    mkdirFault := [], writeFault := [] }

/-- The same filesystem with an injected non-notExist stat error (a
permission-style failure) at the backing file. -/
def fsStatFault : FS :=
  { files := [("/tmp/qr/x.png", [1])], statFault := [("/tmp/qr/x.png", StatErr.other)],
    removeFault := [], mkdirFault := [], writeFault := [] }

/-- A filesystem holding only the old backing file, used by the C9
witness. -/
def fsOld : FS :=
  { files := [("/tmp/qr/old.png", [7])], statFault := [], removeFault := [],
    mkdirFault := [], writeFault := [] }

/-- An update request whose plan moves the file to a new path. -/
def updReq : UpdateRequest :=
  { state := { text := some "t", sensitiveText := none, size := none,
               file := some "/tmp/qr/old.png", sha256 := some "s" },
    plan := { text := some "u", sensitiveText := none, size := none,
              file := some "/tmp/qr/new.png", sha256 := none } }

/-- A data source config supplying `text`. -/
def cText : DSConfig :=
  { text := some "x", sensitiveText := none, errorCorrection := none,
    disableBorder := none, invert := none }

/-- A data source config supplying the same string as `sensitive_text`. -/
def cSens : DSConfig :=
  { text := none, sensitiveText := some "x", errorCorrection := none,
    disableBorder := none, invert := none }

/- ---------------------------------------------------------------------
Claims
--------------------------------------------------------------------- -/

/-- C1: the data source Read resolves the error-correction level by the
uppercasing of the input: "L" maps to Low, "M" and the empty string map
to Medium, "Q" maps to High, "H" maps to Highest; for every other
input, Read reports the invalid-configuration diagnostic naming the
four legal options and produces no output. -/
theorem C1_error_correction_resolution :
    (∀ s : String, goToUpper s = "L" → resolveErrorCorrection s = some RecoveryLevel.Low) ∧
    (∀ s : String, goToUpper s = "M" ∨ s = "" → resolveErrorCorrection s = some RecoveryLevel.Medium) ∧
    (∀ s : String, goToUpper s = "Q" → resolveErrorCorrection s = some RecoveryLevel.High) ∧
    (∀ s : String, goToUpper s = "H" → resolveErrorCorrection s = some RecoveryLevel.Highest) ∧
    (∀ s : String, goToUpper s ≠ "L" → goToUpper s ≠ "M" → goToUpper s ≠ "" → goToUpper s ≠ "Q" →
      goToUpper s ≠ "H" → resolveErrorCorrection s = none) ∧
    (∀ (lib : ExternalLib) (data : DSConfig),
      resolveErrorCorrection (tfValueString data.errorCorrection) = none →
      QRCodeDataSource.Read lib data = Except.error invalidLevelDiag) := by
  refine ⟨?_, ?_, ?_, ?_, ?_, ?_⟩
  · intro s h; unfold resolveErrorCorrection; rw [h]; rfl
  · intro s h
    rcases h with h | h
    · unfold resolveErrorCorrection; rw [h]; rfl
    · subst h; rfl
  · intro s h; unfold resolveErrorCorrection; rw [h]; rfl
  · intro s h; unfold resolveErrorCorrection; rw [h]; rfl
  · intro s h1 h2 h3 h4 h5
    unfold resolveErrorCorrection
    split
    all_goals simp_all
  · intro lib data h
    unfold QRCodeDataSource.Read
    rw [h]

/-- Witness for C1, at the concrete inputs "l", "", "Z". -/
theorem C1_error_correction_resolution_witness :
    resolveErrorCorrection "l" = some RecoveryLevel.Low ∧
    resolveErrorCorrection "" = some RecoveryLevel.Medium ∧
    resolveErrorCorrection "Z" = none ∧
    QRCodeDataSource.Read testLib
      { text := some "hi", sensitiveText := none, errorCorrection := some "Z",
        disableBorder := none, invert := none } = Except.error invalidLevelDiag :=
  ⟨C1_error_correction_resolution.1 "l" (by decide),
   C1_error_correction_resolution.2.1 "" (Or.inr rfl),
   C1_error_correction_resolution.2.2.2.2.1 "Z" (by decide) (by decide) (by decide)
     (by decide) (by decide),
   C1_error_correction_resolution.2.2.2.2.2 testLib _ (by decide)⟩

/-- C4: on successful data source Read, both the ascii attribute and
the ascii_sha256 attribute are set, and ascii_sha256 is the SHA-256 hex
digest of the ascii string. -/
theorem C4_ascii_sha256_set (lib : ExternalLib) (data : DSConfig) (st : DSState)
    (h : QRCodeDataSource.Read lib data = Except.ok st) :
    ∃ a, st.ascii = some a ∧ st.asciiSha256 = some (computeSHA256 lib a) := by
  simp only [QRCodeDataSource.Read] at h
  repeat' split at h
  all_goals (cases h <;> exact ⟨_, rfl, rfl⟩)

/-- Witness for C4, at a concrete config and library. -/
theorem C4_ascii_sha256_set_witness :
    ∃ a, dsWitnessState.ascii = some a ∧
      dsWitnessState.asciiSha256 = some (computeSHA256 testLib a) :=
  C4_ascii_sha256_set testLib dsWitnessConfig dsWitnessState (by rfl)

/-- C2: in resource Create, a null size resolves to 256; an explicit
size is rejected with the "Invalid Size" invalid-configuration
diagnostic exactly when it lies outside [100, 2000] (99 and 2001 fail,
100 and 2000 succeed), and on that failure no encoding happens (the
result is the same for every external library), the filesystem is
untouched, and no state is written. -/
theorem C2_size_bounds :
    resolveSize none = Except.ok 256 ∧
    (∀ v : Int, resolveSize (some v) = Except.error invalidSizeDiag ↔ v < 100 ∨ v > 2000) ∧
    (∀ v : Int, 100 ≤ v → v ≤ 2000 → resolveSize (some v) = Except.ok v) ∧
    resolveSize (some 100) = Except.ok 100 ∧
    resolveSize (some 2000) = Except.ok 2000 ∧
    resolveSize (some 99) = Except.error invalidSizeDiag ∧
    resolveSize (some 2001) = Except.error invalidSizeDiag ∧
    (∀ (lib : ExternalLib) (fs : FS) (plan : ResourceModel) (d : Diag),
      resolveSize plan.size = Except.error d →
      qrcodeResource.Create lib fs plan = { diags := [d], state := none, fs := fs }) ∧
    (∀ (lib : ExternalLib) (fs : FS) (plan : ResourceModel) (v : Int),
      plan.size = some v →
      (invalidSizeDiag ∈ (qrcodeResource.Create lib fs plan).diags ↔ v < 100 ∨ v > 2000)) := by
  refine ⟨rfl, ?_, ?_, rfl, rfl, rfl, rfl, ?_, ?_⟩
  · intro v
    constructor
    · intro h
      by_contra hc
      simp only [resolveSize] at h
      rw [if_neg hc] at h
      exact absurd h (by simp)
    · intro h
      simp only [resolveSize]
      rw [if_pos h]
  · intro v h1 h2
    simp only [resolveSize]
    rw [if_neg (by omega)]
  · intro lib fs plan d h
    unfold qrcodeResource.Create
    rw [h]
  · intro lib fs plan v hv
    by_cases hc : v < 100 ∨ v > 2000
    · have hsz : resolveSize plan.size = Except.error invalidSizeDiag := by
        rw [hv]; simp only [resolveSize]; rw [if_pos hc]
      simp only [qrcodeResource.Create, hsz]
      simpa using hc
    · have hsz : resolveSize plan.size = Except.ok v := by
        rw [hv]; simp only [resolveSize]; rw [if_neg hc]
      simp only [qrcodeResource.Create, hsz]
      constructor
      · intro hmem
        exfalso
        split at hmem
        all_goals try split at hmem
        all_goals try split at hmem
        all_goals simp_all [invalidSizeDiag]
      · intro hcon
        exact absurd hcon hc

/-- Witness for C2, at size 99 with a concrete library and
filesystem. -/
theorem C2_size_bounds_witness :
    qrcodeResource.Create testLib emptyFS plan99 =
      { diags := [invalidSizeDiag], state := none, fs := emptyFS } :=
  C2_size_bounds.2.2.2.2.2.2.2.1 testLib emptyFS plan99 invalidSizeDiag (by rfl)

/-- Association-list helper: filtering out the entries with key `p`
does not change a lookup at a key `q ≠ p`. -/
theorem find_key_filter (l : List (String × List Nat)) (p q : String) (hne : q ≠ p) :
    (l.filter fun e => e.1 ≠ p).find? (fun e => e.1 = q) = l.find? (fun e => e.1 = q) := by
  induction l with
  | nil => rfl
  | cons a l ih =>
    rw [List.filter_cons]
    by_cases ha : a.1 = p
    · rw [if_neg (by simp [ha]), List.find?_cons_of_neg _ (by simp [ha, Ne.symm hne]), ih]
    · rw [if_pos (by simp [ha])]
      by_cases haq : a.1 = q
      · rw [List.find?_cons_of_pos _ (by simp [haq]), List.find?_cons_of_pos _ (by simp [haq])]
      · rw [List.find?_cons_of_neg _ (by simp [haq]), List.find?_cons_of_neg _ (by simp [haq]), ih]

/-- A successful write stores exactly the written bytes at the path. -/
theorem writeFile_lookup_self (fs fs2 : FS) (p : String) (b : List Nat)
    (h : fs.writeFile p b = Except.ok fs2) : fs2.lookup p = some b := by
  unfold FS.writeFile at h
  split at h
  · cases h
  · cases h
    simp [FS.lookup, List.find?_cons_of_pos]

/-- A successful write leaves every other path unchanged. -/
theorem writeFile_lookup_ne (fs fs2 : FS) (p q : String) (b : List Nat)
    (hne : q ≠ p) (h : fs.writeFile p b = Except.ok fs2) :
    fs2.lookup q = fs.lookup q := by
  unfold FS.writeFile at h
  split at h
  · cases h
  · cases h
    simp only [FS.lookup]
    rw [List.find?_cons_of_neg _ (by simp [hne.symm]), find_key_filter _ _ _ hne]

/-- A successful removal deletes the file at the path. -/
theorem remove_lookup_self (fs fs2 : FS) (p : String)
    (h : fs.remove p = Except.ok fs2) : fs2.lookup p = none := by
  unfold FS.remove at h
  split at h
  · cases h
  · cases h
    simp only [FS.lookup]
    rw [List.find?_eq_none.mpr]
    · rfl
    · intro x hx
      have := List.of_mem_filter hx
      simpa using this

/-- Lemma: `MkdirAll` does not change the filesystem on success. -/
theorem mkdirAll_ok (fs fs1 : FS) (d : String)
    (h : fs.mkdirAll d = Except.ok fs1) : fs1 = fs := by
  unfold FS.mkdirAll at h
  split at h
  · cases h
  · cases h; rfl

/-- C3: on successful resource Create, the file at the planned path
holds exactly the PNG bytes produced by encoding the selected text at
Medium with the resolved size, the sha256 attribute is the SHA-256 hex
digest of those bytes, and the state echoes the input attributes. -/
theorem C3_create_success (lib : ExternalLib) (fs : FS) (plan : ResourceModel)
    (hok : (qrcodeResource.Create lib fs plan).diags = []) :
    ∃ st size png,
      (qrcodeResource.Create lib fs plan).state = some st ∧
      resolveSize plan.size = Except.ok size ∧
      lib.encodePNG (selectText plan.text plan.sensitiveText) RecoveryLevel.Medium size
        = Except.ok png ∧
      (qrcodeResource.Create lib fs plan).fs.lookup (tfValueString plan.file) = some png ∧
      st.sha256 = some (lib.sha256Bytes png) ∧
      st.text = plan.text ∧ st.sensitiveText = plan.sensitiveText ∧
      st.size = plan.size ∧ st.file = plan.file := by
  simp only [qrcodeResource.Create] at hok ⊢
  split at hok
  · simp at hok
  · rename_i size hsize
    split at hok
    · simp at hok
    · rename_i png hpng
      split at hok
      · simp at hok
      · rename_i fs1 hmk
        split at hok
        · simp at hok
        · rename_i fs2 hwr
          simp only [hsize, hpng, hmk, hwr]
          refine ⟨_, size, png, rfl, rfl, hpng, ?_, rfl, rfl, rfl, rfl, rfl⟩
          exact writeFile_lookup_self fs1 fs2 _ _ hwr

/-- Witness for C3, at a concrete plan, library and filesystem. -/
theorem C3_create_success_witness :
    ∃ st size png,
      (qrcodeResource.Create testLib emptyFS planOk).state = some st ∧
      resolveSize planOk.size = Except.ok size ∧
      testLib.encodePNG (selectText planOk.text planOk.sensitiveText) RecoveryLevel.Medium size
        = Except.ok png ∧
      (qrcodeResource.Create testLib emptyFS planOk).fs.lookup (tfValueString planOk.file)
        = some png ∧
      st.sha256 = some (testLib.sha256Bytes png) ∧
      st.text = planOk.text ∧ st.sensitiveText = planOk.sensitiveText ∧
      st.size = planOk.size ∧ st.file = planOk.file :=
  C3_create_success testLib emptyFS planOk (by rfl)

/-- C5: on resource Read with a non-empty file path, a not-exist stat
removes the resource from state with no diagnostic, a successful stat
leaves the state unchanged, and Read never reports a diagnostic. -/
theorem C5_read_drift (fs : FS) (state : ResourceModel) (f : String)
    (hf : state.file = some f) (hne : f ≠ "") :
    (fs.stat f = some StatErr.notExist →
      qrcodeResource.Read fs state = { diags := [], state := none }) ∧
    (fs.stat f = none →
      qrcodeResource.Read fs state = { diags := [], state := some state }) ∧
    (qrcodeResource.Read fs state).diags = [] := by
  simp only [qrcodeResource.Read, hf]
  rw [if_neg hne]
  refine ⟨?_, ?_, ?_⟩
  · intro h; rw [h]
  · intro h; rw [h]
  · split <;> rfl

/-- Witness for C5: the missing-file case removes from state, the
present-file case leaves state untouched. -/
theorem C5_read_drift_witness :
    qrcodeResource.Read emptyFS stateWithFile = { diags := [], state := none } ∧
    qrcodeResource.Read fsWithFile stateWithFile
      = { diags := [], state := some stateWithFile } :=
  ⟨(C5_read_drift emptyFS stateWithFile "/tmp/qr/x.png" rfl (by decide)).1 (by rfl),
   (C5_read_drift fsWithFile stateWithFile "/tmp/qr/x.png" rfl (by decide)).2.1 (by rfl)⟩

/-- C6: resource Update is exactly resource Create applied to the
plan of the request (same diagnostics, state and filesystem effects), and is
independent of the prior state. -/
theorem C6_update_is_create :
    (∀ (lib : ExternalLib) (fs : FS) (req : UpdateRequest),
      qrcodeResource.Update lib fs req = qrcodeResource.Create lib fs req.plan) ∧
    (∀ (lib : ExternalLib) (fs : FS) (s1 s2 plan : ResourceModel),
      qrcodeResource.Update lib fs { state := s1, plan := plan } =
        qrcodeResource.Update lib fs { state := s2, plan := plan }) :=
  ⟨fun _ _ _ => rfl, fun _ _ _ _ _ => rfl⟩

/-- C7 counterexample: with the file path in state set to the empty
string, Delete returns without any diagnostic yet does not remove the
resource from state — a non-error outcome in which the resource stays,
contradicting the claim as stated. -/
theorem C7_counterexample :
    (qrcodeResource.Delete emptyFS emptyFileState).diags = [] ∧
    (qrcodeResource.Delete emptyFS emptyFileState).removed = false :=
  ⟨rfl, rfl⟩

/-- C7 (amended): provided the file path in state is set and non-empty,
the file is removed if present, deleting an already-missing file is not
an error, every non-error outcome removes the resource from state, and
only a failure of the removal itself produces a diagnostic, in which
case the resource stays in state and the filesystem is untouched. -/
theorem C7_delete_behaviour (fs : FS) (state : ResourceModel) (f : String)
    (hf : state.file = some f) (hne : f ≠ "") :
    (fs.stat f = some StatErr.notExist →
      qrcodeResource.Delete fs state = { diags := [], removed := true, fs := fs }) ∧
    (fs.stat f = none → f ∉ fs.removeFault →
      (qrcodeResource.Delete fs state).diags = [] ∧
      (qrcodeResource.Delete fs state).removed = true ∧
      (qrcodeResource.Delete fs state).fs.lookup f = none) ∧
    ((qrcodeResource.Delete fs state).diags ≠ [] →
      (qrcodeResource.Delete fs state).removed = false ∧
      (qrcodeResource.Delete fs state).fs = fs) ∧
    ((qrcodeResource.Delete fs state).diags = [] →
      (qrcodeResource.Delete fs state).removed = true) := by
  refine ⟨?_, ?_, ?_, ?_⟩
  · intro h
    simp only [qrcodeResource.Delete, hf]
    rw [if_neg hne, h]
  · intro h hrm
    have hrem : fs.remove f
        = Except.ok { fs with files := fs.files.filter (fun e => e.1 ≠ f) } := by
      unfold FS.remove
      rw [if_neg hrm]
    have hD : qrcodeResource.Delete fs state =
        { diags := [], removed := true,
          fs := { fs with files := fs.files.filter (fun e => e.1 ≠ f) } } := by
      simp only [qrcodeResource.Delete, hf]
      rw [if_neg hne, h, hrem]
    rw [hD]
    exact ⟨rfl, rfl, remove_lookup_self fs _ f hrem⟩
  · intro h
    rcases hstat : fs.stat f with _ | e
    · rcases hrem : fs.remove f with msg | fs1
      · have hD : qrcodeResource.Delete fs state =
            { diags := [{ summary := "Failed to Delete QR Code", detail := msg }],
              removed := false, fs := fs } := by
          simp only [qrcodeResource.Delete, hf]
          rw [if_neg hne, hstat, hrem]
        rw [hD]
        exact ⟨rfl, rfl⟩
      · have hD : qrcodeResource.Delete fs state = { diags := [], removed := true, fs := fs1 } := by
          simp only [qrcodeResource.Delete, hf]
          rw [if_neg hne, hstat, hrem]
        rw [hD] at h
        simp at h
    · have hD : qrcodeResource.Delete fs state = { diags := [], removed := true, fs := fs } := by
        simp only [qrcodeResource.Delete, hf]
        rw [if_neg hne, hstat]
      rw [hD] at h
      simp at h
  · intro h
    rcases hstat : fs.stat f with _ | e
    · rcases hrem : fs.remove f with msg | fs1
      · have hD : qrcodeResource.Delete fs state =
            { diags := [{ summary := "Failed to Delete QR Code", detail := msg }],
              removed := false, fs := fs } := by
          simp only [qrcodeResource.Delete, hf]
          rw [if_neg hne, hstat, hrem]
        rw [hD] at h
        simp at h
      · have hD : qrcodeResource.Delete fs state = { diags := [], removed := true, fs := fs1 } := by
          simp only [qrcodeResource.Delete, hf]
          rw [if_neg hne, hstat, hrem]
        rw [hD]
    · have hD : qrcodeResource.Delete fs state = { diags := [], removed := true, fs := fs } := by
        simp only [qrcodeResource.Delete, hf]
        rw [if_neg hne, hstat]
      rw [hD]

/-- Witness for C7: Delete on an existing file removes it from disk and
from state with no diagnostic. -/
theorem C7_delete_behaviour_witness :
    (qrcodeResource.Delete fsWithFile stateWithFile).diags = [] ∧
    (qrcodeResource.Delete fsWithFile stateWithFile).removed = true ∧
    (qrcodeResource.Delete fsWithFile stateWithFile).fs.lookup "/tmp/qr/x.png" = none :=
  (C7_delete_behaviour fsWithFile stateWithFile "/tmp/qr/x.png" rfl (by decide)).2.1
    (by rfl) (by simp [fsWithFile])

/-- C10: any stat failure at the non-empty file path in state — not
only non-existence, e.g. a permission error — makes Delete skip the
removal attempt with no diagnostic while still removing the resource
from state; a diagnostic arises only when the removal call itself fails
after a successful stat. -/
theorem C10_delete_stat_failure :
    (∀ (fs : FS) (state : ResourceModel) (f : String) (e : StatErr),
      state.file = some f → f ≠ "" → fs.stat f = some e →
      qrcodeResource.Delete fs state = { diags := [], removed := true, fs := fs }) ∧
    (∀ (fs : FS) (state : ResourceModel),
      (qrcodeResource.Delete fs state).diags ≠ [] →
      ∃ f msg, state.file = some f ∧ f ≠ "" ∧ fs.stat f = none ∧
        fs.remove f = Except.error msg) := by
  constructor
  · intro fs state f e hf hne hstat
    simp only [qrcodeResource.Delete, hf]
    rw [if_neg hne, hstat]
  · intro fs state h
    rcases hf : state.file with _ | f
    · simp only [qrcodeResource.Delete, hf] at h
      simp at h
    · by_cases hne : f = ""
      · subst hne
        simp only [qrcodeResource.Delete, hf] at h
        simp at h
      · rcases hstat : fs.stat f with _ | e
        · rcases hrem : fs.remove f with msg | fs1
          · exact ⟨f, msg, rfl, hne, hstat, hrem⟩

          · have hD : qrcodeResource.Delete fs state
                = { diags := [], removed := true, fs := fs1 } := by
              simp only [qrcodeResource.Delete, hf]
              rw [if_neg hne, hstat, hrem]
            rw [hD] at h
            simp at h
        · have hD : qrcodeResource.Delete fs state
              = { diags := [], removed := true, fs := fs } := by
            simp only [qrcodeResource.Delete, hf]
            rw [if_neg hne, hstat]
          rw [hD] at h
          simp at h

/-- Witness for C10: an injected permission-style stat failure at an
existing file makes Delete succeed without touching the filesystem. -/
theorem C10_delete_stat_failure_witness :
    qrcodeResource.Delete fsStatFault stateWithFile
      = { diags := [], removed := true, fs := fsStatFault } :=
  C10_delete_stat_failure.1 fsStatFault stateWithFile "/tmp/qr/x.png" StatErr.other
    rfl (by decide) (by rfl)

/-- Frame property of Create: no path other than the planned file path
is touched on disk. -/
theorem create_frame (lib : ExternalLib) (fs : FS) (plan : ResourceModel) (p : String)
    (hp : p ≠ tfValueString plan.file) :
    (qrcodeResource.Create lib fs plan).fs.lookup p = fs.lookup p := by
  simp only [qrcodeResource.Create]
  split
  · rfl
  · split
    · rfl
    · split
      · rfl
      · rename_i fs1 hmk
        have hfs1 : fs1 = fs := mkdirAll_ok fs fs1 _ hmk
        split
        · exact congrArg (fun x => x.lookup p) hfs1
        · rename_i fs2 hwr
          exact (writeFile_lookup_ne fs1 fs2 _ p _ hp hwr).trans
            (congrArg (fun x => x.lookup p) hfs1)

/-- C9: Update reads only the plan and never the prior state: when the
planned file path differs from the one in the old state, the contents of the old file
are untouched, and any path whose contents change is the new path. -/
theorem C9_update_frame (lib : ExternalLib) (fs : FS) (req : UpdateRequest)
    (oldF newF : String)
    (h1 : req.state.file = some oldF) (h2 : req.plan.file = some newF)
    (hne : oldF ≠ newF) :
    (qrcodeResource.Update lib fs req).fs.lookup oldF = fs.lookup oldF ∧
    (∀ p : String,
      (qrcodeResource.Update lib fs req).fs.lookup p ≠ fs.lookup p → p = newF) := by
  constructor
  · apply create_frame
    rw [h2]
    exact hne
  · intro p hp
    by_contra hcon
    exact hp (create_frame lib fs req.plan p (by rw [h2]; exact hcon))

/-- Witness for C9: updating to a new path leaves the bytes of the old file
in place. -/
theorem C9_update_frame_witness :
    (qrcodeResource.Update testLib fsOld updReq).fs.lookup "/tmp/qr/old.png"
      = fsOld.lookup "/tmp/qr/old.png" ∧
    (∀ p, (qrcodeResource.Update testLib fsOld updReq).fs.lookup p ≠ fsOld.lookup p →
      p = "/tmp/qr/new.png") :=
  C9_update_frame testLib fsOld updReq "/tmp/qr/old.png" "/tmp/qr/new.png" rfl rfl (by decide)

/-- C8: the exactly-one-of schema validation passes iff exactly one of
text and sensitive_text is supplied (both or neither fail), and once it
passes the behaviour of each handler depends only on the selected string —
text when non-null, otherwise sensitive_text — with no other
difference in treatment. -/
theorem C8_exactly_one_text :
    (∀ t s : Option String,
      exactlyOneOfPasses t s = true ↔ ((t.isSome ∧ s = none) ∨ (t = none ∧ s.isSome))) ∧
    (∀ t s : String, exactlyOneOfPasses (some t) (some s) = false) ∧
    exactlyOneOfPasses none none = false ∧
    (∀ (lib : ExternalLib) (c1 c2 : DSConfig),
      selectText c1.text c1.sensitiveText = selectText c2.text c2.sensitiveText →
      c1.errorCorrection = c2.errorCorrection →
      c1.disableBorder = c2.disableBorder →
      c1.invert = c2.invert →
      Except.map (fun st : DSState => (st.ascii, st.asciiSha256)) (QRCodeDataSource.Read lib c1)
        = Except.map (fun st : DSState => (st.ascii, st.asciiSha256))
            (QRCodeDataSource.Read lib c2)) ∧
    (∀ (lib : ExternalLib) (fs : FS) (p1 p2 : ResourceModel),
      selectText p1.text p1.sensitiveText = selectText p2.text p2.sensitiveText →
      p1.size = p2.size → p1.file = p2.file →
      (qrcodeResource.Create lib fs p1).diags = (qrcodeResource.Create lib fs p2).diags ∧
      (qrcodeResource.Create lib fs p1).fs = (qrcodeResource.Create lib fs p2).fs ∧
      Option.map (fun st : ResourceModel => st.sha256) (qrcodeResource.Create lib fs p1).state
        = Option.map (fun st : ResourceModel => st.sha256)
            (qrcodeResource.Create lib fs p2).state) := by
  refine ⟨?_, ?_, ?_, ?_, ?_⟩
  · intro t s
    cases t <;> cases s <;> simp [exactlyOneOfPasses]
  · intro t s
    rfl
  · rfl
  · intro lib c1 c2 h1 h2 h3 h4
    simp only [QRCodeDataSource.Read, h1, h2, h3, h4]
    rcases hres : resolveErrorCorrection (tfValueString c2.errorCorrection) with _ | level
    · simp only [hres]
    · simp only [hres]
      rcases hqr : lib.newQR (selectText c2.text c2.sensitiveText) level with e | qr
      · simp only [hqr]
      · simp only [hqr, Except.map]
  · intro lib fs p1 p2 h1 h2 h3
    simp only [qrcodeResource.Create, h1, h2, h3]
    rcases hsz : resolveSize p2.size with d | size
    · simp [hsz]
    · simp only [hsz]
      rcases hpng : lib.encodePNG (selectText p2.text p2.sensitiveText)
          RecoveryLevel.Medium size with e | png
      · simp [hpng]
      · simp only [hpng]
        rcases hmk : FS.mkdirAll fs (filepathDir (tfValueString p2.file)) with e | fs1
        · simp [hmk]
        · simp only [hmk]
          rcases hwr : fs1.writeFile (tfValueString p2.file) png with e | fs2
          · simp [hwr]
          · simp [hwr]

/-- Witness for C8: text and sensitive_text carrying the same string
produce identical data source outputs; both-set validation fails. -/
theorem C8_exactly_one_text_witness :
    exactlyOneOfPasses (some "x") (some "y") = false ∧
    Except.map (fun st : DSState => (st.ascii, st.asciiSha256)) (QRCodeDataSource.Read testLib cText)
      = Except.map (fun st : DSState => (st.ascii, st.asciiSha256))
          (QRCodeDataSource.Read testLib cSens) :=
  ⟨C8_exactly_one_text.2.1 "x" "y",
   C8_exactly_one_text.2.2.2.1 testLib cText cSens rfl rfl rfl rfl⟩

end QRProvider
